import Mathlib

/-!
Shallow embedding of `src/python/surf/protocols/clink/_ClinkTop.py`:
the `ClinkTop` PyRogue device, a static register-map descriptor for a
CameraLink firmware module.  Variables, commands and sub-devices are
modelled as plain data; the constructor is modelled as a function from
the construction parameters (`serial`, `camType`) to a descriptor tree,
returning `Except` because Python list indexing can raise `IndexError`.
-/

namespace ClinkTop

/-- A `pr.RemoteVariable` declaration: a named bit-field at a byte
offset, with access mode and optional display / polling metadata. -/
structure RemoteVariable where
  name : String
  description : String
  offset : Nat
  bitSize : Nat
  bitOffset : Nat
  mode : String
  isBool : Bool := false
  disp : Option String := none
  units : Option String := none
  pollInterval : Option Nat := none
deriving DecidableEq, Repr

/-- The function attached to a `pr.RemoteCommand`; `ClinkTop` only uses
`pr.BaseCommand.toggle`. -/
inductive CommandFunction where
  | toggle
deriving DecidableEq, Repr

/-- A `pr.RemoteCommand` declaration: a named bit-field whose invocation
runs the attached command function. -/
structure RemoteCommand where
  name : String
  description : String
  offset : Nat
  bitSize : Nat
  bitOffset : Nat
  fn : CommandFunction
deriving DecidableEq, Repr

/-- A nested sub-device added by the constructor: either a
`cl.ClinkChannel` (parameterized by serial and camType) or a
`xil.ClockManager` (parameterized by its type string). -/
inductive SubDevice where
  | clinkChannel (name : String) (offset : Nat)
      (serial : String) (camType : Option String)
  | clockManager (name : String) (offset : Nat)
      (clkType : String) (expand : Bool)
deriving DecidableEq, Repr

/-- The byte offset at which a sub-device is rooted. -/
def SubDevice.offset : SubDevice → Nat
  | .clinkChannel _ o _ _ => o
  | .clockManager _ o _ _ => o

/-- `true` exactly on `clinkChannel` sub-devices. -/
def SubDevice.isChannel : SubDevice → Bool
  | .clinkChannel _ _ _ _ => true
  | .clockManager _ _ _ _ => false

/-- `true` exactly on `clockManager` sub-devices. -/
def SubDevice.isClockManager : SubDevice → Bool
  | .clinkChannel _ _ _ _ => false
  | .clockManager _ _ _ _ => true

/-- The descriptor tree built by `ClinkTop.__init__`: added variables,
added commands, added sub-devices, in source order. -/
structure DeviceTree where
  vars : List RemoteVariable
  commands : List RemoteCommand
  subDevices : List SubDevice
deriving DecidableEq, Repr

/-- `pyrogue`'s `addRemoteVariables` helper: replicates one variable
template `number` times, indexing the name and stepping the byte offset
by `stride` per instance. -/
def addRemoteVariables (name description : String)
    (offset bitSize bitOffset : Nat) (units disp : Option String)
    (mode : String) (pollInterval : Option Nat)
    (number stride : Nat) : List RemoteVariable :=
  (List.range number).map fun i =>
    { name := s!"{name}[{i}]"
      description := description
      offset := offset + i * stride
      bitSize := bitSize
      bitOffset := bitOffset
      mode := mode
      disp := disp
      units := units
      pollInterval := pollInterval }

/-- The `self.add(pr.RemoteVariable(...))` calls of `ClinkTop.__init__`,
in source order, followed by the three `addRemoteVariables` arrays. -/
def clinkTopVariables : List RemoteVariable :=
  [ { name := "ChanCount", description := "Supported channels"
      offset := 0x00, bitSize := 4, bitOffset := 0x00, mode := "RO" }
  , { name := "LinkLockedA", description := "Camera link channel locked status"
      offset := 0x10, bitSize := 1, bitOffset := 0, isBool := true
      pollInterval := some 1, mode := "RO" }
  , { name := "LinkLockedB", description := "Camera link channel locked status"
      offset := 0x10, bitSize := 1, bitOffset := 1, isBool := true
      pollInterval := some 1, mode := "RO" }
  , { name := "LinkLockedC", description := "Camera link channel locked status"
      offset := 0x10, bitSize := 1, bitOffset := 2, isBool := true
      pollInterval := some 1, mode := "RO" }
  , { name := "LinkLockedCntA"
      description := "Camera link channel locked status counter"
      offset := 0x10, bitSize := 8, bitOffset := 8, disp := some "\x7b\x7d"
      mode := "RO", pollInterval := some 1 }
  , { name := "LinkLockedCntB"
      description := "Camera link channel locked status counter"
      offset := 0x10, bitSize := 8, bitOffset := 16, disp := some "\x7b\x7d"
      mode := "RO", pollInterval := some 1 }
  , { name := "LinkLockedCntC"
      description := "Camera link channel locked status counter"
      offset := 0x10, bitSize := 8, bitOffset := 24, disp := some "\x7b\x7d"
      mode := "RO", pollInterval := some 1 }
  , { name := "ShiftCountA", description := "Shift count for channel"
      offset := 0x14, bitSize := 3, bitOffset := 0, mode := "RO"
      pollInterval := some 1 }
  , { name := "ShiftCountB", description := "Shift count for channel"
      offset := 0x14, bitSize := 3, bitOffset := 8, mode := "RO"
      pollInterval := some 1 }
  , { name := "ShiftCountC", description := "Shift count for channel"
      offset := 0x14, bitSize := 3, bitOffset := 16, mode := "RO"
      pollInterval := some 1 }
  , { name := "DelayA", description := "Precision delay for channel A"
      offset := 0x18, bitSize := 5, bitOffset := 0, mode := "RO"
      pollInterval := some 1 }
  , { name := "DelayB", description := "Precision delay for channel B"
      offset := 0x18, bitSize := 5, bitOffset := 8, mode := "RO"
      pollInterval := some 1 }
  , { name := "DelayC", description := "Precision delay for channel C"
      offset := 0x18, bitSize := 5, bitOffset := 16, mode := "RO"
      pollInterval := some 1 } ]
  ++ addRemoteVariables "ClkInFreq" "Clock Input Freq" 0x01C 32 0
      (some "Hz") (some "\x7b:d\x7d") "RO" (some 1) 3 4
  ++ addRemoteVariables "ClinkClkFreq" "CameraLink Clock Freq" 0x028 32 0
      (some "Hz") (some "\x7b:d\x7d") "RO" (some 1) 3 4
  ++ addRemoteVariables "ClinkClk7xFreq" "CameraLink Clock x 7 Freq" 0x034 32 0
      (some "Hz") (some "\x7b:d\x7d") "RO" (some 1) 3 4

/-- The `self.add(pr.RemoteCommand(...))` calls of `ClinkTop.__init__`,
in source order. -/
def clinkTopCommands : List RemoteCommand :=
  [ { name := "ResetPll", description := "Camera link channel PLL reset"
      offset := 0x04, bitSize := 1, bitOffset := 0, fn := .toggle }
  , { name := "ResetFsm", description := "Camera link channel FSM reset"
      offset := 0x04, bitSize := 1, bitOffset := 1, fn := .toggle }
  , { name := "CntRst", description := ""
      offset := 0x04, bitSize := 1, bitOffset := 2, fn := .toggle } ]

/-- Python list indexing `xs[i]`: raises `IndexError` when `i` is out of
range. -/
def pyIndex (xs : List α) (i : Nat) : Except String α :=
  match xs.get? i with
  | some x => Except.ok x
  | none => Except.error "IndexError"

/-- One iteration of the channel loop in `ClinkTop.__init__`:
`if serial[i] is not None: self.add(cl.ClinkChannel(...))`.  Returns the
(possibly empty) list of sub-devices added for slot `i`; evaluating
`serial[i]` and, when the slot is present, `camType[i]` can raise. -/
def channelSlot (serial camType : List (Option String)) (i : Nat) :
    Except String (List SubDevice) := do
  let s ← pyIndex serial i
  match s with
  | none => pure []
  | some sv => do
      let c ← pyIndex camType i
      pure [SubDevice.clinkChannel s!"Ch[{i}]" (0x100 + i * 0x100) sv c]

/-- The three `xil.ClockManager` sub-devices added unconditionally. -/
def pllSubDevices : List SubDevice :=
  (List.range 3).map fun i =>
    SubDevice.clockManager s!"Pll[{i}]" (0x1000 + i * 0x1000) "MMCME2" false

/-- The whole of `ClinkTop.__init__`, as a function from the
construction parameters to the descriptor tree (or an index error). -/
def build (serial camType : List (Option String)) :
    Except String DeviceTree := do
  let ch0 ← channelSlot serial camType 0
  let ch1 ← channelSlot serial camType 1
  pure { vars := clinkTopVariables
         commands := clinkTopCommands
         subDevices := ch0 ++ ch1 ++ pllSubDevices }

/-! ### Register-write semantics for command pulses

A device state maps byte offsets to register words.  `pr.BaseCommand.toggle`
writes 1 and then 0 to the command's bit-field; we record the writes as a
trace and give them a state semantics so that frame properties (which other
fields a pulse leaves untouched) can be stated. -/

/-- A single bit-field write: `value` into `bitSize` bits at `bitOffset`
of the word at byte `offset`. -/
structure BitWrite where
  offset : Nat
  bitOffset : Nat
  bitSize : Nat
  value : Nat
deriving DecidableEq, Repr

/-- `pr.BaseCommand.toggle` applied to a command: write 1 to the field,
then write 0. -/
def RemoteCommand.execToggle (c : RemoteCommand) : List BitWrite :=
  [ { offset := c.offset, bitOffset := c.bitOffset, bitSize := c.bitSize
      value := 1 }
  , { offset := c.offset, bitOffset := c.bitOffset, bitSize := c.bitSize
      value := 0 } ]

/-- The `CntRst` command declaration (third entry of
`clinkTopCommands`). -/
def cntRstCmd : RemoteCommand :=
  { name := "CntRst", description := ""
    offset := 0x04, bitSize := 1, bitOffset := 2, fn := .toggle }

/-- Invoking `self.CntRst()`. -/
def cntRst : List BitWrite := cntRstCmd.execToggle

/-- `ClinkTop.hardReset`: calls `self.CntRst()`. -/
def hardReset : List BitWrite := cntRst

/-- `ClinkTop.softReset`: calls `self.CntRst()`. -/
def softReset : List BitWrite := cntRst

/-- `ClinkTop.countReset`: calls `self.CntRst()`. -/
def countReset : List BitWrite := cntRst

/-- Replace the `width`-bit field at bit `bo` of word `w` with `v`
(truncated to the field width). -/
def writeBits (w bo width v : Nat) : Nat :=
  w % 2 ^ bo + v % 2 ^ width * 2 ^ bo + w / 2 ^ (bo + width) * 2 ^ (bo + width)

/-- Apply one bit-field write to a device state. -/
def applyWrite (s : Nat → Nat) (w : BitWrite) : Nat → Nat :=
  fun o => if o = w.offset then writeBits (s o) w.bitOffset w.bitSize w.value
           else s o

/-- Apply a write trace to a device state, in order. -/
def applyTrace (s : Nat → Nat) (t : List BitWrite) : Nat → Nat :=
  t.foldl applyWrite s

/-- Read the `width`-bit field at bit `bo` of the word at byte `off`. -/
def readField (s : Nat → Nat) (off bo width : Nat) : Nat :=
  s off / 2 ^ bo % 2 ^ width

/-- The `(offset, bitOffset, bitSize)` triple of every field (variable
or command) declared by `ClinkTop`. -/
def fieldTriples : List (Nat × Nat × Nat) :=
  clinkTopVariables.map (fun v => (v.offset, v.bitOffset, v.bitSize))
  ++ clinkTopCommands.map (fun c => (c.offset, c.bitOffset, c.bitSize))

end ClinkTop

namespace ClinkTop

/-- Channel sub-devices of a tree rooted at byte offset `off`. -/
def channelsAt (t : DeviceTree) (off : Nat) : List SubDevice :=
  t.subDevices.filter (fun d => d.isChannel && d.offset == off)

end ClinkTop

open ClinkTop

/-- C3: every field declared by `ClinkTop` fits in the 32-bit register
word (`bitOffset + bitWidth ≤ 32`), and any two distinct fields sharing
a byte offset have disjoint bit ranges. -/
theorem c3_field_layout_invariant :
    (∀ f ∈ fieldTriples, f.2.1 + f.2.2 ≤ 32) ∧
    fieldTriples.Pairwise (fun a b =>
      a.1 = b.1 → a.2.1 + a.2.2 ≤ b.2.1 ∨ b.2.1 + b.2.2 ≤ a.2.1) := by
  decide

/-- C3 witness: the `LinkLockedCntC` field (offset 0x10, bit 24,
width 8) is in the field list and fits the 32-bit word. -/
theorem c3_field_layout_invariant_witness :
    (0x10, 24, 8) ∈ fieldTriples ∧ 24 + 8 ≤ 32 :=
  ⟨by decide, c3_field_layout_invariant.1 (0x10, 24, 8) (by decide)⟩

/-- C4: the variables carrying unit "Hz" are exactly the nine frequency
fields: three arrays (`ClkInFreq`, `ClinkClkFreq`, `ClinkClk7xFreq`) of
exactly 3 elements each, 32-bit read-only, at consecutive registers with
a 4-byte stride starting at 0x1C, 0x28, 0x34 respectively, each polled
(interval 1) and displayed in decimal. -/
theorem c4_frequency_arrays :
    clinkTopVariables.filter (fun v => v.units == some "Hz") =
      [ { name := "ClkInFreq[0]", description := "Clock Input Freq"
          offset := 0x1C, bitSize := 32, bitOffset := 0, mode := "RO"
          disp := some "\x7b:d\x7d", units := some "Hz", pollInterval := some 1 }
      , { name := "ClkInFreq[1]", description := "Clock Input Freq"
          offset := 0x20, bitSize := 32, bitOffset := 0, mode := "RO"
          disp := some "\x7b:d\x7d", units := some "Hz", pollInterval := some 1 }
      , { name := "ClkInFreq[2]", description := "Clock Input Freq"
          offset := 0x24, bitSize := 32, bitOffset := 0, mode := "RO"
          disp := some "\x7b:d\x7d", units := some "Hz", pollInterval := some 1 }
      , { name := "ClinkClkFreq[0]", description := "CameraLink Clock Freq"
          offset := 0x28, bitSize := 32, bitOffset := 0, mode := "RO"
          disp := some "\x7b:d\x7d", units := some "Hz", pollInterval := some 1 }
      , { name := "ClinkClkFreq[1]", description := "CameraLink Clock Freq"
          offset := 0x2C, bitSize := 32, bitOffset := 0, mode := "RO"
          disp := some "\x7b:d\x7d", units := some "Hz", pollInterval := some 1 }
      , { name := "ClinkClkFreq[2]", description := "CameraLink Clock Freq"
          offset := 0x30, bitSize := 32, bitOffset := 0, mode := "RO"
          disp := some "\x7b:d\x7d", units := some "Hz", pollInterval := some 1 }
      , { name := "ClinkClk7xFreq[0]", description := "CameraLink Clock x 7 Freq"
          offset := 0x34, bitSize := 32, bitOffset := 0, mode := "RO"
          disp := some "\x7b:d\x7d", units := some "Hz", pollInterval := some 1 }
      , { name := "ClinkClk7xFreq[1]", description := "CameraLink Clock x 7 Freq"
          offset := 0x38, bitSize := 32, bitOffset := 0, mode := "RO"
          disp := some "\x7b:d\x7d", units := some "Hz", pollInterval := some 1 }
      , { name := "ClinkClk7xFreq[2]", description := "CameraLink Clock x 7 Freq"
          offset := 0x3C, bitSize := 32, bitOffset := 0, mode := "RO"
          disp := some "\x7b:d\x7d", units := some "Hz", pollInterval := some 1 } ] := by
  decide

/-- C6: the commands of the tree are exactly three one-bit toggle pulses
(PLL reset at bit 0, FSM reset at bit 1, counter reset at bit 2), all in
the register at offset 0x04 with pairwise distinct bits, and each
executes as a set-then-clear write pair. -/
theorem c6_command_pulses :
    clinkTopCommands.map (fun c => (c.name, c.offset, c.bitOffset, c.bitSize)) =
      [("ResetPll", 0x04, 0, 1), ("ResetFsm", 0x04, 1, 1), ("CntRst", 0x04, 2, 1)] ∧
    clinkTopCommands.map RemoteCommand.fn = [.toggle, .toggle, .toggle] ∧
    (clinkTopCommands.map (fun c => c.bitOffset)).Pairwise (fun a b => a ≠ b) ∧
    clinkTopCommands.map RemoteCommand.execToggle =
      [ [⟨0x04, 0, 1, 1⟩, ⟨0x04, 0, 1, 0⟩]
      , [⟨0x04, 1, 1, 1⟩, ⟨0x04, 1, 1, 0⟩]
      , [⟨0x04, 2, 1, 1⟩, ⟨0x04, 2, 1, 0⟩] ] := by
  decide

/-- C7: the fields at byte offset 0x10 are exactly six read-only
variables: three boolean 1-bit link-locked fields at bits 0, 1, 2 and
three 8-bit locked-counter fields at bits 8, 16, 24, all polled with
interval 1, the counters displayed as plain integers; no command lives
at 0x10. -/
theorem c7_locked_register :
    clinkTopVariables.filter (fun v => v.offset == 0x10) =
      [ { name := "LinkLockedA", description := "Camera link channel locked status"
          offset := 0x10, bitSize := 1, bitOffset := 0, isBool := true
          pollInterval := some 1, mode := "RO" }
      , { name := "LinkLockedB", description := "Camera link channel locked status"
          offset := 0x10, bitSize := 1, bitOffset := 1, isBool := true
          pollInterval := some 1, mode := "RO" }
      , { name := "LinkLockedC", description := "Camera link channel locked status"
          offset := 0x10, bitSize := 1, bitOffset := 2, isBool := true
          pollInterval := some 1, mode := "RO" }
      , { name := "LinkLockedCntA"
          description := "Camera link channel locked status counter"
          offset := 0x10, bitSize := 8, bitOffset := 8, disp := some "\x7b\x7d"
          mode := "RO", pollInterval := some 1 }
      , { name := "LinkLockedCntB"
          description := "Camera link channel locked status counter"
          offset := 0x10, bitSize := 8, bitOffset := 16, disp := some "\x7b\x7d"
          mode := "RO", pollInterval := some 1 }
      , { name := "LinkLockedCntC"
          description := "Camera link channel locked status counter"
          offset := 0x10, bitSize := 8, bitOffset := 24, disp := some "\x7b\x7d"
          mode := "RO", pollInterval := some 1 } ] ∧
    clinkTopCommands.filter (fun c => c.offset == 0x10) = [] := by
  decide

/-- C10: the poll interval of every `ClinkTop` variable, by name:
`ChanCount` carries none, every other variable is polled at exactly
1 second; command declarations carry no poll interval at all (the
`RemoteCommand` descriptor has no such parameter). -/
theorem c10_poll_intervals :
    clinkTopVariables.map (fun v => (v.name, v.pollInterval)) =
      [ ("ChanCount", none)
      , ("LinkLockedA", some 1), ("LinkLockedB", some 1), ("LinkLockedC", some 1)
      , ("LinkLockedCntA", some 1), ("LinkLockedCntB", some 1), ("LinkLockedCntC", some 1)
      , ("ShiftCountA", some 1), ("ShiftCountB", some 1), ("ShiftCountC", some 1)
      , ("DelayA", some 1), ("DelayB", some 1), ("DelayC", some 1)
      , ("ClkInFreq[0]", some 1), ("ClkInFreq[1]", some 1), ("ClkInFreq[2]", some 1)
      , ("ClinkClkFreq[0]", some 1), ("ClinkClkFreq[1]", some 1), ("ClinkClkFreq[2]", some 1)
      , ("ClinkClk7xFreq[0]", some 1), ("ClinkClk7xFreq[1]", some 1), ("ClinkClk7xFreq[2]", some 1) ] ∧
    clinkTopCommands.map (fun c => c.name) = ["ResetPll", "ResetFsm", "CntRst"] := by
  decide

/-- C1: for every two-slot construction input, construction succeeds and
each slot `i` yields exactly one channel sub-device at offset
`0x100 + i*0x100` parameterized with that slot's serial and camType when
the serial is non-absent, and no channel sub-device at that offset when
the serial is absent. -/
theorem c1_channel_slots (s0 s1 c0 c1 : Option String) :
    (build [s0, s1] [c0, c1]).map
        (fun t => (channelsAt t 0x100, channelsAt t 0x200)) =
      Except.ok
        ( (match s0 with
           | some a => [SubDevice.clinkChannel "Ch[0]" 0x100 a c0]
           | none => [])
        , (match s1 with
           | some a => [SubDevice.clinkChannel "Ch[1]" 0x200 a c1]
           | none => []) ) := by
  cases s0 <;> cases s1 <;> rfl

/-- C9: channel presence is decided solely by the serial slot; with an
absent (None) camType the channel sub-device is still built, the absent
camType passed through to it, for either slot. -/
theorem c9_camtype_never_inspected (a : String) (c0 c1 : Option String) :
    build [some a, none] [none, c1] =
      Except.ok { vars := clinkTopVariables, commands := clinkTopCommands
                  subDevices := SubDevice.clinkChannel "Ch[0]" 0x100 a none :: pllSubDevices } ∧
    build [none, some a] [c0, none] =
      Except.ok { vars := clinkTopVariables, commands := clinkTopCommands
                  subDevices := SubDevice.clinkChannel "Ch[1]" 0x200 a none :: pllSubDevices } :=
  ⟨rfl, rfl⟩

/-- A successful channel-loop iteration only ever adds `clinkChannel`
sub-devices, never clock managers. -/
theorem channelSlot_channels {serial camType : List (Option String)} {i : Nat}
    {l : List SubDevice} (h : channelSlot serial camType i = Except.ok l) :
    ∀ d ∈ l, d.isClockManager = false := by
  unfold channelSlot at h
  rcases hs : pyIndex serial i with e | s <;> rw [hs] at h <;>
    simp only [bind, Except.bind] at h
  · exact Except.noConfusion h
  cases s with
  | none =>
    simp only [pure, Except.pure] at h
    injection h with h
    subst h
    intro d hd
    simp at hd
  | some sv =>
    rcases hc : pyIndex camType i with e | c <;> rw [hc] at h <;>
      simp only [bind, Except.bind, pure, Except.pure] at h
    · exact Except.noConfusion h
    · injection h with h
      subst h
      intro d hd
      simp at hd
      subst hd
      rfl

/-- C5: every successfully built tree, for any construction input,
contains exactly three clock-manager sub-devices, at base offsets
0x1000, 0x2000 and 0x3000, each of the fixed type MMCME2. -/
theorem c5_clock_managers (serial camType : List (Option String)) (t : DeviceTree)
    (h : build serial camType = Except.ok t) :
    t.subDevices.filter SubDevice.isClockManager =
      [ SubDevice.clockManager "Pll[0]" 0x1000 "MMCME2" false
      , SubDevice.clockManager "Pll[1]" 0x2000 "MMCME2" false
      , SubDevice.clockManager "Pll[2]" 0x3000 "MMCME2" false ] := by
  unfold build at h
  rcases h0 : channelSlot serial camType 0 with e0 | l0 <;> rw [h0] at h <;>
    simp only [bind, Except.bind] at h
  · exact Except.noConfusion h
  rcases h1 : channelSlot serial camType 1 with e1 | l1 <;> rw [h1] at h <;>
    simp only [bind, Except.bind, pure, Except.pure] at h
  · exact Except.noConfusion h
  injection h with h
  subst h
  have e0 : l0.filter SubDevice.isClockManager = [] := by
    rw [List.filter_eq_nil_iff]
    intro d hd
    simp [channelSlot_channels h0 d hd]
  have e1 : l1.filter SubDevice.isClockManager = [] := by
    rw [List.filter_eq_nil_iff]
    intro d hd
    simp [channelSlot_channels h1 d hd]
  simp only [List.filter_append, e0, e1, List.nil_append]
  rfl

/-- C5 witness: the tree built from `serial=[None,None]` has exactly
the three clock managers at 0x1000, 0x2000, 0x3000. -/
theorem c5_clock_managers_witness :
    ({ vars := clinkTopVariables, commands := clinkTopCommands
       subDevices := pllSubDevices } : DeviceTree).subDevices.filter
        SubDevice.isClockManager =
      [ SubDevice.clockManager "Pll[0]" 0x1000 "MMCME2" false
      , SubDevice.clockManager "Pll[1]" 0x2000 "MMCME2" false
      , SubDevice.clockManager "Pll[2]" 0x3000 "MMCME2" false ] :=
  c5_clock_managers [none, none] [none, none] _ rfl

/-- C2: `hardReset`, `softReset` and `countReset` are pure aliases of the
same `CntRst` toggle — a single set-then-clear pulse of bit 2 of the
register at offset 0x04 — and applying that pulse leaves every other
field of the device (every declared field triple except `CntRst`'s own)
unchanged in any device state. -/
theorem c2_reset_aliases :
    hardReset = countReset ∧ softReset = countReset ∧
    countReset = cntRstCmd.execToggle ∧
    cntRstCmd.execToggle =
      [ { offset := 0x04, bitOffset := 2, bitSize := 1, value := 1 }
      , { offset := 0x04, bitOffset := 2, bitSize := 1, value := 0 } ] ∧
    ∀ (s : Nat → Nat), ∀ f ∈ fieldTriples, f ≠ (0x04, 2, 1) →
      readField (applyTrace s hardReset) f.1 f.2.1 f.2.2 =
        readField s f.1 f.2.1 f.2.2 := by
  refine ⟨rfl, rfl, rfl, rfl, ?_⟩
  intro s f hf hne
  fin_cases hf <;>
    first
      | rfl
      | (exact absurd rfl hne)
      | (simp only [readField, applyTrace, applyWrite, hardReset, countReset,
          cntRst, cntRstCmd, RemoteCommand.execToggle, List.foldl, writeBits,
          if_pos, if_neg]
         norm_num
         omega)

/-- C2 witness: in the constant-7 state, the `ChanCount` field (offset 0,
bits 0-3) reads the same before and after a `hardReset` pulse. -/
theorem c2_reset_aliases_witness :
    readField (applyTrace (fun _ => 7) hardReset) 0x00 0 4 =
      readField (fun _ => 7) 0x00 0 4 :=
  c2_reset_aliases.2.2.2.2 (fun _ => 7) (0x00, 0, 4) (by decide) (by decide)

/-- C8 counterexample: a serial list of length 3 (not exactly 2) does
not make construction fail — `build` succeeds, contradicting the claim
that any list whose length differs from 2 fails fast. -/
theorem c8_counterexample :
    ([none, none, none] : List (Option String)).length ≠ 2 ∧
    (build [none, none, none] [none, none, none]).isOk = true :=
  ⟨by decide, rfl⟩

/-- C8 amended: construction fails fast (Python `IndexError`) whenever
the serial list is shorter than the two slots the loop indexes, and
well-formed two-slot input constructs without error.  A serial length
other than 2 is not by itself an error: the counterexample shows one
length-3 input that builds successfully. -/
theorem c8_amended (serial camType : List (Option String)) (s0 s1 c0 c1 : Option String) :
    (serial.length < 2 → (build serial camType).isOk = false) ∧
    (build [s0, s1] [c0, c1]).isOk = true := by
  constructor
  · intro hlen
    match serial with
    | [] => rfl
    | [x] =>
      cases x with
      | none => rfl
      | some sv =>
        cases camType with
        | nil => rfl
        | cons c cs => rfl
    | a :: b :: tl =>
      simp only [List.length_cons] at hlen
      omega
  · cases s0 <;> cases s1 <;> rfl

/-- C8 amended witness: the empty serial list fails to build, and the
two-slot all-absent input builds successfully. -/
theorem c8_amended_witness :
    (build ([] : List (Option String)) []).isOk = false ∧
    (build [none, none] [none, none]).isOk = true :=
  ⟨(c8_amended [] [] none none none none).1 (by decide),
   (c8_amended [] [] none none none none).2⟩
